import Mathlib

/-!
Verification development for the BitNBuild personal-finance assistant.

This file gives a shallow embedding, in Lean 4, of the deterministic core of
the repository: the tax bracket engines and deduction extractor
(src/fastapi/app.py, src/services/tax_calculator.py) and the RAG routing,
slot-filling and retrieval logic (src/rag/app.py, src/fastapi/app.py), and
proves or refutes the spec claims about them.

Modelling conventions:
- Python floats and decimal literals are modelled as exact rationals.
- Python strings are modelled by Lean strings; `pat in s` is modelled by
  `pyIn pat s` (substring containment over character lists), `str.lower()`
  by `pyLower` (ASCII lowering, all inputs of interest are ASCII) and
  `str.strip()` by `pyStrip`.
- `round(x, 2)` is modelled by `round2` using Mathlib's `round`
  (round-half-up); Python uses round-half-to-even, which agrees except at
  exact half-cent midpoints and is monotone in either convention.
- Python dicts whose values are read in insertion order are modelled as
  association lists in the same order.
-/

/-- Substring containment over character lists: prefix test.  -/
def chListPrefix : List Char → List Char → Bool
  | [], _ => true
  | _ :: _, [] => false
  | a :: as, b :: bs => a == b && chListPrefix as bs

/-- Substring containment over character lists (models Python `pat in s`). -/
def chListInfix (pat : List Char) : List Char → Bool
  | [] => pat.isEmpty
  | c :: rest => chListPrefix pat (c :: rest) || chListInfix pat rest

/-- Models Python `pat in s` for strings. -/
def pyIn (pat s : String) : Bool := chListInfix pat.toList s.toList

/-- Models Python `s.lower()` (ASCII inputs). -/
def pyLower (s : String) : String := ⟨s.data.map Char.toLower⟩

/-- Models Python `s.strip()`: drop whitespace on both ends. -/
def pyStrip (s : String) : String :=
  ⟨((s.data.dropWhile Char.isWhitespace).reverse.dropWhile Char.isWhitespace).reverse⟩

/-- A tax slab: upper bound (`none` models `float('inf')`) and marginal rate. -/
abbrev Slab := Option ℚ × ℚ

/-- Models Python `round(x, 2)` (see the header note on midpoints). -/
def round2 (q : ℚ) : ℚ := (round (q * 100) : ℚ) / 100

/-- Well-formedness of a slab table relative to the previous upper bound:
non-negative rates and ascending finite bounds.  Both engines stop
accumulating at a `float('inf')` bound, so nothing after one matters. -/
def slabsWF : ℚ → List Slab → Prop
  | _, [] => True
  | _, (none, rate) :: _ => 0 ≤ rate
  | prev, (some l, rate) :: rest => 0 ≤ rate ∧ prev ≤ l ∧ slabsWF l rest


namespace FinancialProcessor

/-! Embedding of `FinancialProcessor` and the module-level tables of
src/fastapi/app.py. -/

/-- `FINANCIAL_CATEGORIES` dict of src/fastapi/app.py (insertion order). -/
def FINANCIAL_CATEGORIES : List (String × List String) := [
  ("income", ["salary", "freelance", "dividend", "interest", "bonus", "refund"]),
  ("emi", ["emi", "loan", "mortgage", "car loan", "home loan", "personal loan"]),
  ("sip", ["sip", "mutual fund", "systematic", "investment", "elss"]),
  ("rent", ["rent", "house rent", "apartment", "accommodation"]),
  ("insurance", ["insurance", "premium", "life insurance", "health insurance"]),
  ("utilities", ["electricity", "gas", "water", "internet", "mobile", "phone"]),
  ("food", ["restaurant", "food", "grocery", "supermarket", "dining"]),
  ("transport", ["fuel", "petrol", "taxi", "uber", "ola", "metro", "bus"]),
  ("entertainment", ["movie", "entertainment", "netflix", "spotify", "game"]),
  ("shopping", ["shopping", "amazon", "flipkart", "clothing", "electronics"]),
  ("medical", ["hospital", "doctor", "medical", "pharmacy", "medicine"]),
  ("education", ["school", "college", "course", "book", "education", "tuition"])]

/-- `FinancialProcessor.categorize_transaction` of src/fastapi/app.py:
first category (in dict order) with a matching keyword wins, then the
generic credit/debit heuristics, then the `"uncategorized"` sentinel. -/
def categorize_transaction (description : String) : String :=
  let dl := pyLower description
  match FINANCIAL_CATEGORIES.find? (fun p => p.2.any (fun kw => pyIn kw dl)) with
  | some p => p.1
  | none =>
    if ["transfer", "payment", "debit"].any (fun w => pyIn w dl) then "other_expense"
    else if ["credit", "deposit"].any (fun w => pyIn w dl) then "other_income"
    else "uncategorized"

/-- `OLD_REGIME_SLABS` of src/fastapi/app.py. -/
def OLD_REGIME_SLABS : List Slab :=
  [(some 250000, 0), (some 500000, 0.05), (some 1000000, 0.20), (none, 0.30)]

/-- `NEW_REGIME_SLABS` of src/fastapi/app.py. -/
def NEW_REGIME_SLABS : List Slab :=
  [(some 300000, 0), (some 600000, 0.05), (some 900000, 0.10),
   (some 1200000, 0.15), (some 1500000, 0.20), (none, 0.30)]

/-- `DEDUCTION_LIMITS` dict of src/fastapi/app.py. -/
def DEDUCTION_LIMITS : List (String × ℚ) :=
  [("80C", 150000), ("80D", 25000), ("80G", 100000), ("24b", 200000)]

/-- `min(income, limit)` where `limit` may be `float('inf')`. -/
def capMin (income : ℚ) : Option ℚ → ℚ
  | none => income
  | some l => min income l

/-- The slab loop of `FinancialProcessor.calculate_tax`: walks the slabs,
breaking when `income <= prev_limit`; for each slab taxes
`min(income, limit) - prev_limit`, breaking after a slab once
`income <= limit` (always true on the `float('inf')` slab). -/
def slab_loop (income : ℚ) : ℚ → List Slab → ℚ
  | _, [] => 0
  | prev, (limit, rate) :: rest =>
    if income ≤ prev then 0
    else
      let t := (capMin income limit - prev) * rate
      match limit with
      | none => t
      | some l => if income ≤ l then t else t + slab_loop income l rest

/-- Result dict of `FinancialProcessor.calculate_tax`. -/
structure TaxDict where
  gross_tax : ℚ
  cess : ℚ
  total_tax : ℚ
  effective_rate : ℚ
deriving DecidableEq

/-- `FinancialProcessor.calculate_tax(income, regime)` of src/fastapi/app.py:
new-regime slabs when `regime == 'new'`, otherwise the old-regime slabs;
flat 4% cess on top of the slab walk. -/
def calculate_tax (income : ℚ) (regime : String) : TaxDict :=
  let slabs := if regime = "new" then NEW_REGIME_SLABS else OLD_REGIME_SLABS
  let tax := slab_loop income 0 slabs
  { gross_tax := tax
    cess := tax * 0.04
    total_tax := tax * 1.04
    effective_rate := if 0 < income then tax * 1.04 / income else 0 }

end FinancialProcessor


namespace TaxCalculator

/-! Embedding of `TaxCalculator` of src/services/tax_calculator.py. -/

/-- A parsed transaction as consumed by `TaxCalculator` (the `category`
attribute defaults to `'other'` in the source; here it is always present). -/
structure Transaction where
  amount : ℚ
  category : String
  description : String
  transaction_type : String

/-- `self.old_regime_slabs` (FY 2024-25). -/
def old_regime_slabs : List Slab :=
  [(some 250000, 0), (some 500000, 0.05), (some 1000000, 0.20), (none, 0.30)]

/-- `self.new_regime_slabs` (FY 2024-25). -/
def new_regime_slabs : List Slab :=
  [(some 300000, 0), (some 600000, 0.05), (some 900000, 0.10),
   (some 1200000, 0.15), (some 1500000, 0.20), (none, 0.30)]

/-- `self.standard_deduction`. -/
def standard_deduction : ℚ := 50000

/-- `self.deduction_limits` dict (insertion order). -/
def deduction_limits : List (String × ℚ) :=
  [("80C", 150000), ("80D", 25000), ("80D_parents", 50000), ("80G", 0),
   ("24b", 200000), ("80TTA", 10000), ("80E", 0), ("80EE", 50000)]

/-- Dict lookup `self.deduction_limits[sec]` (every access in the source uses
a present key, so the default is never hit). -/
def limitOf (sec : String) : ℚ :=
  (((deduction_limits.find? (fun p => p.1 = sec)).map (fun p => p.2)).getD 0)

/-- The per-section deduction ledger built by `_analyze_financial_data`
(keys `'80C'`, `'80D'`, `'24b'`, `'80G'`, `'80TTA'`, `'80E'`). -/
structure Deductions where
  d80C : ℚ
  d80D : ℚ
  d24b : ℚ
  d80G : ℚ
  d80TTA : ℚ
  d80E : ℚ

/-- `sum(deductions.values())`. -/
def Deductions.total (d : Deductions) : ℚ :=
  d.d80C + d.d80D + d.d24b + d.d80G + d.d80TTA + d.d80E

/-- The loop state of `_analyze_financial_data`. -/
structure FinState where
  income_total : ℚ
  ded : Deductions
  category_totals : List (String × ℚ)

/-- The `category_totals` bookkeeping at the bottom of the transaction loop:
insert the category with total 0 if absent, then add the amount for debits. -/
def bumpCategory (cats : List (String × ℚ)) (c : String) (isDebit : Bool)
    (amt : ℚ) : List (String × ℚ) :=
  let cats1 := if (cats.find? (fun p => p.1 = c)).isNone then cats ++ [(c, 0)] else cats
  if isDebit then cats1.map (fun p => if p.1 = c then (p.1, p.2 + amt) else p) else cats1

/-- One iteration of the transaction loop of `_analyze_financial_data`:
the income / deduction `elif` chain followed by the category totals. -/
def processTransaction (st : FinState) (t : Transaction) : FinState :=
  let amount := t.amount
  let desc := pyLower t.description
  let st1 : FinState :=
    if t.category = "income" ∨ t.transaction_type = "credit" then
      if ["salary", "wage", "bonus"].any (fun k => pyIn k desc) then
        { st with income_total := st.income_total + amount }
      else st
    else if t.category = "sip" ∨ pyIn "sip" desc then
      if pyIn "elss" desc then
        { st with ded := { st.ded with
            d80C := st.ded.d80C + min amount (limitOf "80C" - st.ded.d80C) } }
      else st
    else if t.category = "insurance" ∨ pyIn "insurance" desc then
      if pyIn "health" desc ∨ pyIn "medical" desc then
        if pyIn "parent" desc then
          { st with ded := { st.ded with
              d80D := st.ded.d80D + min amount (limitOf "80D_parents") } }
        else
          { st with ded := { st.ded with
              d80D := st.ded.d80D + min amount (limitOf "80D") } }
      else st
    else if t.category = "emi" ∧ pyIn "home loan" desc then
      { st with ded := { st.ded with
          d24b := st.ded.d24b + min (amount * 0.7) (limitOf "24b" - st.ded.d24b) } }
    else if pyIn "donation" desc ∨ pyIn "charity" desc then
      { st with ded := { st.ded with d80G := st.ded.d80G + amount } }
    else if pyIn "interest" desc ∧ t.transaction_type = "credit" then
      if pyIn "savings" desc then
        { st with ded := { st.ded with
            d80TTA := st.ded.d80TTA + min amount (limitOf "80TTA" - st.ded.d80TTA) } }
      else st
    else if pyIn "education loan" desc then
      { st with ded := { st.ded with d80E := st.ded.d80E + amount } }
    else st
  { st1 with category_totals :=
      bumpCategory st1.category_totals t.category (t.transaction_type = "debit") amount }

/-- Return value of `_analyze_financial_data`. -/
structure FinancialSummary where
  total_income : ℚ
  total_deductions : ℚ
  deductions : Deductions
  category_totals : List (String × ℚ)

/-- `TaxCalculator._analyze_financial_data`. -/
def analyze_financial_data (ts : List Transaction) : FinancialSummary :=
  let st := ts.foldl processTransaction ⟨0, ⟨0, 0, 0, 0, 0, 0⟩, []⟩
  ⟨st.income_total, st.ded.total, st.ded, st.category_totals⟩

/-- The slab loop of `_calculate_tax_from_slabs`: consumes `remaining`
income through the slabs.  After an infinite slab the remaining income is
zero, so the recursion matches the Python loop that breaks on
`remaining_income <= 0`. -/
def tc_slab_loop : ℚ → ℚ → List Slab → ℚ
  | _, _, [] => 0
  | remaining, prev, (limit, rate) :: rest =>
    if remaining ≤ 0 then 0
    else
      match limit with
      | none => remaining * rate + tc_slab_loop 0 0 rest
      | some l =>
        let taxable := min remaining (l - prev)
        taxable * rate + tc_slab_loop (remaining - taxable) l rest

/-- `TaxCalculator._calculate_tax_from_slabs`: slab walk, then 4% cess,
then `round(·, 2)`. -/
def calculate_tax_from_slabs (income : ℚ) (slabs : List Slab) : ℚ :=
  round2 (tc_slab_loop income 0 slabs * 1.04)

/-- `TaxCalculator._calculate_old_regime_tax`: subtracts the deduction sum
from its argument (the caller has already subtracted it once). -/
def calculate_old_regime_tax (taxable_income : ℚ) (d : Deductions) : ℚ :=
  calculate_tax_from_slabs (max 0 (taxable_income - d.total)) old_regime_slabs

/-- `TaxCalculator._calculate_new_regime_tax`. -/
def calculate_new_regime_tax (total_income : ℚ) : ℚ :=
  calculate_tax_from_slabs (max 0 (total_income - standard_deduction)) new_regime_slabs

/-- Result dict of `TaxCalculator.calculate_tax` (the recommendation strings
and the echoed financial summary are presentation data and not modelled). -/
structure TaxResult where
  total_income : ℚ
  taxable_income : ℚ
  old_regime_tax : ℚ
  new_regime_tax : ℚ
  tax_saved : ℚ
  recommended_regime : String
  deductions : Deductions

/-- `TaxCalculator.calculate_tax`: derives income and deductions from the
transactions, computes `taxable_income`, both regime taxes, and the
recommended regime.  There is no validation of non-positive income. -/
def calculate_tax (ts : List Transaction) : TaxResult :=
  let fs := analyze_financial_data ts
  let taxable := max 0 (fs.total_income - fs.total_deductions - standard_deduction)
  let old := calculate_old_regime_tax taxable fs.deductions
  let new := calculate_new_regime_tax fs.total_income
  { total_income := fs.total_income
    taxable_income := taxable
    old_regime_tax := old
    new_regime_tax := new
    tax_saved := |old - new|
    recommended_regime := if old < new then "Old Regime" else "New Regime"
    deductions := fs.deductions }

end TaxCalculator


namespace RagApp

/-! Embedding of the voice RAG agent of src/rag/app.py: the spoken-value
extractors, the query classifier, the collection retrieval wrapper, and the
slot-filling turn handler `process_tax_speech`.  External collaborators
(the LLM, the vector store, telephony) enter as explicit oracle arguments;
the spoken reply texts are presentation data and not modelled beyond the
turn outcome. -/

/-- Character class `\d` (the inputs of interest are ASCII). -/
def takeDigits (l : List Char) : List Char := l.takeWhile (fun c => c.isDigit)

/-- Rest after the leading digit run. -/
def dropDigits (l : List Char) : List Char := l.dropWhile (fun c => c.isDigit)

/-- `\s*`: skip whitespace. -/
def skipSpaces (l : List Char) : List Char := l.dropWhile (fun c => c.isWhitespace)

/-- Numeric value of a digit run. -/
def digitsVal (ds : List Char) : ℕ :=
  ds.foldl (fun a c => 10 * a + (c.toNat - 48)) 0

/-- Word character for `\b` (`[A-Za-z0-9_]`). -/
def isWordChar (c : Char) : Bool := c.isAlphanum || c == '_'

/-- Try the regex `(\d+(?:\.\d+)?)\s*SUFFIX` at a position whose head is a
digit.  If the optional fraction is consumed but the suffix then fails, the
regex backtracks to the integer-only reading (whose `\s*SUFFIX` then starts
at the `'.'` and fails for the letter suffixes used here). -/
def tryNumSuffix (suffix : List Char) (l : List Char) : Option ℚ :=
  let ds := takeDigits l
  if ds.isEmpty then none
  else
    match dropDigits l with
    | '.' :: r2 =>
      let fs := takeDigits r2
      if fs.isEmpty then
        if chListPrefix suffix (skipSpaces ('.' :: r2)) then some (digitsVal ds) else none
      else
        if chListPrefix suffix (skipSpaces (dropDigits r2)) then
          some ((digitsVal ds : ℚ) + (digitsVal fs : ℚ) / (10 : ℚ) ^ fs.length)
        else if chListPrefix suffix (skipSpaces ('.' :: r2)) then some (digitsVal ds)
        else none
    | rest1 =>
      if chListPrefix suffix (skipSpaces rest1) then some (digitsVal ds) else none

/-- `re.search` for `(\d+(?:\.\d+)?)\s*SUFFIX`: leftmost match wins. -/
def scanNumSuffix (suffix : List Char) : List Char → Option ℚ
  | [] => none
  | c :: rest =>
    if c.isDigit then
      match tryNumSuffix suffix (c :: rest) with
      | some q => some q
      | none => scanNumSuffix suffix rest
    else scanNumSuffix suffix rest

/-- Try `\b(\d+(?:\.\d+)?)\b` at a digit preceded by a boundary.  A word
character right after the digits kills the match (shrinking `\d+` leaves a
digit-digit adjacency, never a boundary); after a consumed fraction a word
character makes the regex backtrack to the integer reading, whose trailing
boundary at `'.'` always holds. -/
def tryBareNum (l : List Char) : Option ℚ :=
  let ds := takeDigits l
  if ds.isEmpty then none
  else
    match dropDigits l with
    | '.' :: r2 =>
      let fs := takeDigits r2
      if fs.isEmpty then some (digitsVal ds)
      else
        match dropDigits r2 with
        | [] => some ((digitsVal ds : ℚ) + (digitsVal fs : ℚ) / (10 : ℚ) ^ fs.length)
        | c :: _ =>
          if isWordChar c then some (digitsVal ds)
          else some ((digitsVal ds : ℚ) + (digitsVal fs : ℚ) / (10 : ℚ) ^ fs.length)
    | [] => some (digitsVal ds)
    | c :: _ => if isWordChar c then none else some (digitsVal ds)

/-- `re.search` for `\b(\d+(?:\.\d+)?)\b`, tracking whether the previous
character was a word character. -/
def scanBareNum : Bool → List Char → Option ℚ
  | _, [] => none
  | prevW, c :: rest =>
    if c.isDigit && !prevW then
      match tryBareNum (c :: rest) with
      | some q => some q
      | none => scanBareNum true rest
    else scanBareNum (isWordChar c) rest

/-- `extract_number_from_speech` of src/rag/app.py: digit-prefixed
`lakh` / `crore` forms on the lowered speech, then a bare number.  The
function comment in the source says it handles spoken numbers like
"ten lakhs", but every regex requires a digit. -/
def extract_number_from_speech (speech : String) : Option ℚ :=
  let low := (pyLower speech).toList
  match scanNumSuffix "lakh".toList low with
  | some q => some (q * 100000)
  | none =>
    match scanNumSuffix "crore".toList low with
    | some q => some (q * 10000000)
    | none => scanBareNum false speech.toList

/-- The `income_keywords` dict of `extract_income_sources_from_speech`. -/
def income_keywords : List (String × List String) := [
  ("salary", ["salary", "job", "employed", "employment", "wage"]),
  ("business", ["business", "self-employed", "proprietor", "shop", "trading"]),
  ("profession", ["profession", "professional", "doctor", "lawyer", "consultant", "practice"]),
  ("house_property", ["rental", "rent", "property", "house property", "real estate"]),
  ("capital_gains", ["capital gains", "shares", "stocks", "mutual fund", "property sale"]),
  ("other_sources", ["interest", "dividend", "fd", "fixed deposit", "savings"])]

/-- `extract_income_sources_from_speech` of src/rag/app.py. -/
def extract_income_sources_from_speech (speech : String) : List String :=
  let sl := pyLower speech
  let srcs := (income_keywords.filter (fun p => p.2.any (fun k => pyIn k sl))).map (fun p => p.1)
  if srcs.isEmpty then ["unknown"] else srcs

/-- Affirmative keywords of `extract_yes_no_from_speech` (checked first). -/
def affirmative_words : List String := ["yes", "yeah", "yep", "sure", "correct", "right"]

/-- Negative keywords of `extract_yes_no_from_speech` (checked second). -/
def negative_words : List String := ["no", "nope", "not", "wrong", "incorrect"]

/-- `extract_yes_no_from_speech` of src/rag/app.py: substring containment on
`speech.lower().strip()`, affirmatives before negatives. -/
def extract_yes_no_from_speech (speech : String) : Option Bool :=
  let sl := pyStrip (pyLower speech)
  if affirmative_words.any (fun w => pyIn w sl) then some true
  else if negative_words.any (fun w => pyIn w sl) then some false
  else none

/-- `TaxFilingAdvisor.determine_tax_query_category` of src/rag/app.py. -/
def determine_tax_query_category (query : String) : String :=
  let ql := pyLower query
  let basic_keywords := ["how to file", "tax filing", "itr filing", "tax return",
    "file taxes", "due date", "penalty", "documents required", "verification", "e-filing"]
  let income_kw := ["salary income", "business income", "house property",
    "rental income", "capital gains", "other sources", "dividend", "interest income"]
  let regime_keywords := ["old regime", "new regime", "tax regime", "which regime",
    "regime comparison", "tax rates", "tax slabs"]
  let form_keywords := ["itr form", "itr-1", "itr-2", "itr-3", "itr-4",
    "which form", "form selection", "sahaj", "sugam"]
  let deduction_keywords := ["deduction", "80c", "80d", "exemption", "hra",
    "standard deduction", "tax saving", "investment", "ppf", "elss", "home loan"]
  if basic_keywords.any (fun k => pyIn k ql) then "tax_filing_basics"
  else if income_kw.any (fun k => pyIn k ql) then "income_categories"
  else if regime_keywords.any (fun k => pyIn k ql) then "tax_regimes"
  else if form_keywords.any (fun k => pyIn k ql) then "itr_forms"
  else if deduction_keywords.any (fun k => pyIn k ql) then "deductions_exemptions"
  else "tax_filing_basics"

/-- `TaxFilingAdvisor.query_tax_collection` of src/rag/app.py.  The backing
store is an oracle: `none` models a missing collection (`collections.get`
falsy), `some (Except.error e)` a raising query, `some (Except.ok rs)` a
successful query returning (document, distance) pairs.  Metadata is dropped;
the returned list holds the document contents. -/
def query_tax_collection (store : String → Option (Except String (List (String × ℚ))))
    (_query category : String) : List String :=
  match store category with
  | none => ["Tax information not available."]
  | some (Except.error _) => ["Unable to retrieve tax information at the moment."]
  | some (Except.ok results) =>
    let filtered := (results.filter (fun d => decide (d.2 < (0.6 : ℚ)))).map (fun d => d.1)
    if filtered.isEmpty then ["No specific information found for your query."] else filtered

/-- The four follow-up slot types handled by `process_tax_speech`. -/
inductive SlotType where
  | total_income
  | income_sources
  | previous_itr_filed
  | current_deductions
deriving DecidableEq

/-- The per-call session dict (fields the turn handler reads or writes;
missing dict keys are `none`).  `total_income` holds the integer stored by
`str(int(income_amount))`. -/
structure RagSession where
  total_income : Option ℤ
  income_sources : Option (List String)
  previous_itr_filed : Option String
  current_deductions : Option String
  pending_follow_up : Option String
  pending_follow_up_type : Option SlotType
  last_query : Option String
  last_response : Option String
deriving DecidableEq

/-- Follow-up question for the income slot (`generate_tax_response`). -/
def incomeQuestion : String :=
  "What\x27s your approximate annual income? You can say like \x27five lakhs\x27 or \x27ten lakhs\x27."

/-- Follow-up question for the income-sources slot (`generate_tax_response`). -/
def sourcesQuestion : String :=
  "What are your sources of income? Salary, business, rental, or others?"

/-- Chained follow-up asked right after a successful income answer
(`process_tax_speech`, total_income branch). -/
def sourcesQuestionChained : String :=
  "What are your income sources? Salary, business, property rental, or others?"

/-- Follow-up question for the previous-ITR slot (`generate_tax_response`). -/
def itrQuestion : String := "Have you filed ITR in previous years?"

/-- Follow-up question for the deductions slot (`generate_tax_response`). -/
def deductionsQuestion : String :=
  "Do you have investments like PPF, ELSS, or home loan for deductions?"

/-- The follow-up selection of `TaxFilingAdvisor.generate_tax_response`:
profile attributes are "unknown" exactly when the session lacks them. -/
def chooseFollowUp (query : String) (s : RagSession) : Option (String × SlotType) :=
  let ql := pyLower query
  if pyIn "file tax" ql ∨ pyIn "itr" ql then
    if s.total_income = none then some (incomeQuestion, SlotType.total_income)
    else if s.income_sources.getD ["unknown"] = ["unknown"] then
      some (sourcesQuestion, SlotType.income_sources)
    else if s.previous_itr_filed = none then some (itrQuestion, SlotType.previous_itr_filed)
    else none
  else if pyIn "regime" ql ∧ s.current_deductions = none then
    some (deductionsQuestion, SlotType.current_deductions)
  else none

/-- `TaxFilingAdvisor.generate_tax_response`: the AI reply is an oracle
argument (retrieval context and prompt text only feed the LLM and are not
session state).  Updates `last_query` / `last_response` and, when a
follow-up is chosen, both pending fields; otherwise the pending fields are
left as they were. -/
def generate_tax_response (ai query : String) (s : RagSession) :
    String × Option (String × SlotType) × RagSession :=
  let fu := chooseFollowUp query s
  let s1 :=
    match fu with
    | some (f, t) =>
      { s with last_query := some query, last_response := some ai,
               pending_follow_up := some f, pending_follow_up_type := some t }
    | none => { s with last_query := some query, last_response := some ai }
  (ai, fu, s1)

/-- Outcome of one `process_tax_speech` turn (the spoken reply text is not
modelled). -/
inductive TurnOutcome where
  | reprompt
  | hangup
  | replied
deriving DecidableEq

/-- The farewell check at the top of `process_tax_speech`. -/
def isFarewell (speech : String) : Bool :=
  ["goodbye", "end call", "thank you", "bye"].any (fun w => pyIn w (pyLower speech))

/-- The follow-up-type sniffing on the no-pending path of
`process_tax_speech` (lines 571-578); when no keyword matches, the session
key is left untouched. -/
def sniffFollowUpType (f : String) : Option SlotType :=
  let fl := pyLower f
  if pyIn "income" fl ∧ pyIn "annual" fl then some SlotType.total_income
  else if pyIn "sources" fl then some SlotType.income_sources
  else if pyIn "filed" fl then some SlotType.previous_itr_filed
  else if pyIn "deductions" fl ∨ pyIn "investments" fl then some SlotType.current_deductions
  else none

/-- The fall-through path of `process_tax_speech`: generate a normal
response; the handler then re-stores the returned follow-up string and
sniffs its type (the session object is shared, so `generate_tax_response`
has already stored both pending fields). -/
def normalResponsePath (ai speech : String) (s : RagSession) : TurnOutcome × RagSession :=
  match generate_tax_response ai speech s with
  | (_, some (f, _), s1) =>
    (TurnOutcome.replied,
      { s1 with pending_follow_up := some f,
                pending_follow_up_type :=
                  match sniffFollowUpType f with
                  | some t => some t
                  | none => s1.pending_follow_up_type })
  | (_, none, s1) => (TurnOutcome.replied, s1)

/-- `process_tax_speech` of src/rag/app.py as a session transition: strips
the speech, re-prompts on empty speech, hangs up on farewell words, then
dispatches on the pending follow-up type.  Failed slot extraction
re-prompts and leaves the session unchanged; successful extraction stores
the profile attribute and clears (or chains) the pending slot. -/
def process_tax_speech (ai rawSpeech : String) (s : RagSession) :
    TurnOutcome × RagSession :=
  let speech := pyStrip rawSpeech
  if speech = "" then (TurnOutcome.reprompt, s)
  else if isFarewell speech then (TurnOutcome.hangup, s)
  else
    match s.pending_follow_up with
    | some _ =>
      match s.pending_follow_up_type with
      | some SlotType.total_income =>
        match extract_number_from_speech speech with
        | some n =>
          if 0 < n then
            (TurnOutcome.replied,
              { s with total_income := some ⌊n⌋,
                       pending_follow_up := some sourcesQuestionChained,
                       pending_follow_up_type := some SlotType.income_sources })
          else (TurnOutcome.reprompt, s)
        | none => (TurnOutcome.reprompt, s)
      | some SlotType.income_sources =>
        let srcs := extract_income_sources_from_speech speech
        if srcs ≠ ["unknown"] then
          (TurnOutcome.replied,
            { s with income_sources := some srcs,
                     pending_follow_up := none, pending_follow_up_type := none })
        else (TurnOutcome.reprompt, s)
      | some SlotType.previous_itr_filed =>
        match extract_yes_no_from_speech speech with
        | some b =>
          let s1 := { s with previous_itr_filed := some (if b then "yes" else "no"),
                             pending_follow_up := none, pending_follow_up_type := none }
          match generate_tax_response ai "help with tax filing process" s1 with
          | (_, some (f, _), s2) => (TurnOutcome.replied, { s2 with pending_follow_up := some f })
          | (_, none, s2) => (TurnOutcome.replied, s2)
        | none => (TurnOutcome.reprompt, s)
      | some SlotType.current_deductions =>
        match extract_yes_no_from_speech speech with
        | some b =>
          (TurnOutcome.replied,
            { s with current_deductions := some (if b then "yes" else "no"),
                     pending_follow_up := none, pending_follow_up_type := none })
        | none => (TurnOutcome.reprompt, s)
      | none => normalResponsePath ai speech s
    | none => normalResponsePath ai speech s

/-- Per-slot extraction failure, exactly as tested by the corresponding
`process_tax_speech` branch (`income_amount and income_amount > 0` is falsy
for `None` and for non-positive numbers). -/
def slot_extraction_fails (t : SlotType) (speech : String) : Bool :=
  match t with
  | SlotType.total_income =>
    match extract_number_from_speech speech with
    | some n => decide (n ≤ 0)
    | none => true
  | SlotType.income_sources => decide (extract_income_sources_from_speech speech = ["unknown"])
  | SlotType.previous_itr_filed => (extract_yes_no_from_speech speech).isNone
  | SlotType.current_deductions => (extract_yes_no_from_speech speech).isNone

end RagApp


namespace FastApiEndpoints

/-! Embedding of the `/analyze/tax` and `/chat/query` endpoints of
src/fastapi/app.py.  `Except.error` models a raised `HTTPException`;
database persistence and the recommendation strings are out of the
modelled core. -/

/-- Response of `/analyze/tax` (the recommendation strings are not
modelled). -/
structure TaxAnalysis where
  old_regime_tax : ℚ
  new_regime_tax : ℚ
  deductions_available : List (String × ℚ)

/-- `analyze_tax` of src/fastapi/app.py: rejects non-positive income with a
422 validation error, otherwise computes both regimes and the per-section
deduction headroom. -/
def analyze_tax (annual_income : ℚ) (investments : List (String × ℚ)) :
    Except String TaxAnalysis :=
  if annual_income ≤ 0 then Except.error "Annual income must be positive"
  else
    let old := FinancialProcessor.calculate_tax annual_income "old"
    let new := FinancialProcessor.calculate_tax annual_income "new"
    let available := FinancialProcessor.DEDUCTION_LIMITS.map (fun p =>
      (p.1, max 0 (p.2 - (((investments.find? (fun q => q.1 = p.1)).map (fun q => q.2)).getD 0))))
    Except.ok ⟨old.total_tax, new.total_tax, available⟩

/-- Response dict of `/chat/query`. -/
structure ChatResponse where
  answer : String
  sources_used : ℕ
  confidence : String
deriving DecidableEq

/-- The hard-coded fallback answer used when the LLM call raises. -/
def chat_fallback_answer (question : String) : String :=
  "I understand you\x27re asking about: " ++ question ++
    ". However, I\x27m currently unable to access the AI service. For tax-related queries, I recommend consulting with a qualified tax professional or checking the latest information on incometax.gov.in"

/-- `chat_query` of src/fastapi/app.py.  The vector search and the LLM call
are oracles (`Except.error` models a raised exception).  A vector-search
failure is swallowed: the context stays empty and `sources_used` stays 0;
an LLM failure yields the static fallback answer with confidence "low". -/
def chat_query (groqAvailable hasApiKey chromaAvailable : Bool)
    (vectorSearch : Except String (List String)) (groqCall : Except String String)
    (question : String) : Except String ChatResponse :=
  if pyStrip question = "" then Except.error "Question cannot be empty"
  else if !groqAvailable then
    Except.ok ⟨"AI chat is currently unavailable. Please install the \x27groq\x27 library and set GROQ_API_KEY.", 0, "low"⟩
  else if !hasApiKey then
    Except.ok ⟨"AI chat is currently unavailable. Please set up GROQ_API_KEY environment variable.", 0, "low"⟩
  else
    let cs : String × ℕ :=
      if chromaAvailable then
        match vectorSearch with
        | Except.ok docs =>
          (if docs.isEmpty then "" else String.intercalate "\n" docs, docs.length)
        | Except.error _ => ("", 0)
      else ("", 0)
    match groqCall with
    | Except.ok ans =>
      Except.ok ⟨ans, cs.2, if cs.1 ≠ "" then "high" else "medium"⟩
    | Except.error _ => Except.ok ⟨chat_fallback_answer question, cs.2, "low"⟩

end FastApiEndpoints


/-- The fixed category enumeration of `categorize_transaction`: the twelve
keyword categories plus the three fallback sentinels. -/
def transaction_category_enum : List String :=
  ["income", "emi", "sip", "rent", "insurance", "utilities", "food", "transport",
   "entertainment", "shopping", "medical", "education",
   "other_expense", "other_income", "uncategorized"]

/-- The five collection names `determine_tax_query_category` can return. -/
def rag_category_enum : List String :=
  ["tax_filing_basics", "income_categories", "tax_regimes", "itr_forms",
   "deductions_exemptions"]

/-- Claim C1 counterexample input: income 1200000, old regime. -/
def c1Result : FinancialProcessor.TaxDict :=
  FinancialProcessor.calculate_tax 1200000 "old"

/-- Claim C2 counterexample input: a qualifying 80D health-insurance debit
of 20000 (two of these exceed the 25000 cap of section 80D). -/
def c2HealthTxn : TaxCalculator.Transaction :=
  { amount := 20000, category := "insurance",
    description := "health insurance premium", transaction_type := "debit" }

/-- The empty initial state of the `_analyze_financial_data` loop. -/
def finStateInit : TaxCalculator.FinState := ⟨0, ⟨0, 0, 0, 0, 0, 0⟩, []⟩

/-- Claim C3 failing input: a salary credit of 1200000. -/
def c3SalaryTxn : TaxCalculator.Transaction :=
  { amount := 1200000, category := "income",
    description := "monthly salary credit", transaction_type := "credit" }

/-- Claim C3 failing input: an ELSS SIP debit of 150000 (fills 80C). -/
def c3ElssTxn : TaxCalculator.Transaction :=
  { amount := 150000, category := "sip",
    description := "sip elss mutual fund", transaction_type := "debit" }

/-- Claim C4: a session awaiting the `total_income` slot. -/
def c4Session : RagApp.RagSession :=
  { total_income := none, income_sources := none, previous_itr_filed := none,
    current_deductions := none, pending_follow_up := some RagApp.incomeQuestion,
    pending_follow_up_type := some RagApp.SlotType.total_income,
    last_query := none, last_response := none }

/-- Claim C9 witness: a session awaiting the `previous_itr_filed` slot. -/
def c9Session : RagApp.RagSession :=
  { total_income := some 800000, income_sources := some ["salary"],
    previous_itr_filed := none, current_deductions := none,
    pending_follow_up := some RagApp.itrQuestion,
    pending_follow_up_type := some RagApp.SlotType.previous_itr_filed,
    last_query := none, last_response := none }

/-- C1: the claim states `calculate_tax(1200000, "old")` yields gross tax
102500 and total tax 106600.  The code walks 250000·0 + 250000·0.05 +
500000·0.20 + 200000·0.30 = 172500, so the claimed figures are false. -/
theorem c1_counterexample :
    ¬ (c1Result.gross_tax = 102500 ∧ c1Result.total_tax = 106600) := by
  intro h
  have h1 : c1Result.gross_tax = 172500 := by
    norm_num [c1Result, FinancialProcessor.calculate_tax, FinancialProcessor.slab_loop,
      FinancialProcessor.capMin, FinancialProcessor.OLD_REGIME_SLABS, min_def]
  rw [h1] at h
  exact absurd h.1 (by norm_num)

/-- C1 amended: `calculate_tax(1200000, "old")` with zero deductions returns
gross tax before cess 172500 and total tax after the 4% cess 179400. -/
theorem c1_amended :
    c1Result.gross_tax = 172500 ∧ c1Result.cess = 6900 ∧
      c1Result.total_tax = 179400 := by
  refine ⟨?_, ?_, ?_⟩ <;>
    norm_num [c1Result, FinancialProcessor.calculate_tax, FinancialProcessor.slab_loop,
      FinancialProcessor.capMin, FinancialProcessor.OLD_REGIME_SLABS, min_def]


/-- C7: for every input string the transaction classifier and the RAG query
classifier return a member of their fixed category enumerations (the
classifiers are total functions and cannot raise or return null), and the
empty string takes the default sentinel in both. -/
theorem c7_classifier_totality (s : String) :
    FinancialProcessor.categorize_transaction s ∈ transaction_category_enum ∧
    RagApp.determine_tax_query_category s ∈ rag_category_enum ∧
    FinancialProcessor.categorize_transaction "" = "uncategorized" ∧
    RagApp.determine_tax_query_category "" = "tax_filing_basics" := by
  refine ⟨?_, ?_, by decide, by decide⟩
  · simp only [FinancialProcessor.categorize_transaction]
    cases hf : FinancialProcessor.FINANCIAL_CATEGORIES.find?
        (fun p => p.2.any (fun kw => pyIn kw (pyLower s))) with
    | none =>
      simp only [hf]
      split_ifs <;> decide
    | some p =>
      simp only [hf]
      have hm := List.mem_of_find?_eq_some hf
      fin_cases hm <;> decide
  · simp only [RagApp.determine_tax_query_category]
    split_ifs <;> decide

/-- C10: the yes/no slot extractor checks affirmative keywords first with
substring containment on the lowered, stripped utterance: any utterance
containing an affirmative substring yields `some true` (so "incorrect",
which contains "correct", yields `some true`); a negative keyword without
an affirmative substring yields `some false`; anything else yields
`none`. -/
theorem c10_yes_no_priority (s : String) :
    (RagApp.affirmative_words.any (fun w => pyIn w (pyStrip (pyLower s))) = true →
      RagApp.extract_yes_no_from_speech s = some true) ∧
    (RagApp.affirmative_words.any (fun w => pyIn w (pyStrip (pyLower s))) = false →
      RagApp.negative_words.any (fun w => pyIn w (pyStrip (pyLower s))) = true →
      RagApp.extract_yes_no_from_speech s = some false) ∧
    (RagApp.affirmative_words.any (fun w => pyIn w (pyStrip (pyLower s))) = false →
      RagApp.negative_words.any (fun w => pyIn w (pyStrip (pyLower s))) = false →
      RagApp.extract_yes_no_from_speech s = none) ∧
    RagApp.extract_yes_no_from_speech "incorrect" = some true := by
  refine ⟨?_, ?_, ?_, by decide⟩ <;>
    intro h <;>
    simp only [RagApp.extract_yes_no_from_speech, h] <;>
    try intro h2
  · simp
  · simp [h2]
  · simp [h2]

/-- Witness for C10 at concrete utterances: "incorrect" is affirmative by
containment, "no way" is negative only, "maybe later" is neither. -/
theorem c10_yes_no_priority_witness :
    (RagApp.affirmative_words.any (fun w => pyIn w (pyStrip (pyLower "incorrect"))) = true ∧
      RagApp.extract_yes_no_from_speech "incorrect" = some true) ∧
    (RagApp.affirmative_words.any (fun w => pyIn w (pyStrip (pyLower "no way"))) = false ∧
      RagApp.negative_words.any (fun w => pyIn w (pyStrip (pyLower "no way"))) = true ∧
      RagApp.extract_yes_no_from_speech "no way" = some false) ∧
    (RagApp.affirmative_words.any (fun w => pyIn w (pyStrip (pyLower "maybe later"))) = false ∧
      RagApp.negative_words.any (fun w => pyIn w (pyStrip (pyLower "maybe later"))) = false ∧
      RagApp.extract_yes_no_from_speech "maybe later" = none) :=
  ⟨⟨by decide, (c10_yes_no_priority "incorrect").1 (by decide)⟩,
   ⟨by decide, by decide, (c10_yes_no_priority "no way").2.1 (by decide) (by decide)⟩,
   ⟨by decide, by decide, (c10_yes_no_priority "maybe later").2.2.1 (by decide) (by decide)⟩⟩

/-- C4: the claim (and the extractor's own source comment and voice prompt)
says "ten lakhs" extracts 1000000, fills the profile and clears the slot.
The regexes all require a digit, so "ten lakhs" extracts nothing and the
turn leaves the session unchanged (re-prompt); the digit form "10 lakhs"
does extract 1000000. -/
theorem c4_code_eval :
    RagApp.extract_number_from_speech "ten lakhs" = none ∧
    RagApp.extract_number_from_speech "10 lakhs" = some 1000000 ∧
    RagApp.process_tax_speech "" "ten lakhs" c4Session =
      (RagApp.TurnOutcome.reprompt, c4Session) := by
  refine ⟨by decide, ?_, by decide⟩
  have h : RagApp.scanNumSuffix "lakh".toList ((pyLower "10 lakhs").toList) =
      some ((10 : ℕ) : ℚ) := by decide
  simp only [RagApp.extract_number_from_speech, h]
  norm_num

/-- C9: whenever a session is awaiting a slot and the slot-specific
extractor fails on the (stripped) utterance, the turn leaves both
`pending_follow_up` and `pending_follow_up_type` unchanged. -/
theorem c9_slot_retained (ai rawSpeech : String) (s : RagApp.RagSession)
    (fu : String) (t : RagApp.SlotType)
    (hp : s.pending_follow_up = some fu)
    (ht : s.pending_follow_up_type = some t)
    (hf : RagApp.slot_extraction_fails t (pyStrip rawSpeech) = true) :
    (RagApp.process_tax_speech ai rawSpeech s).2.pending_follow_up = some fu ∧
    (RagApp.process_tax_speech ai rawSpeech s).2.pending_follow_up_type = some t := by
  cases t with
  | total_income =>
    simp only [RagApp.slot_extraction_fails] at hf
    simp only [RagApp.process_tax_speech, hp, ht]
    split_ifs with h1 h2
    · exact ⟨hp, ht⟩
    · exact ⟨hp, ht⟩
    · cases hx : RagApp.extract_number_from_speech (pyStrip rawSpeech) with
      | none => simp only [hx]; exact ⟨hp, ht⟩
      | some n =>
        rw [hx] at hf
        have hn : n ≤ 0 := of_decide_eq_true hf
        simp only [hx, if_neg (not_lt.mpr hn)]
        exact ⟨hp, ht⟩
  | income_sources =>
    simp only [RagApp.slot_extraction_fails] at hf
    have hu : RagApp.extract_income_sources_from_speech (pyStrip rawSpeech) = ["unknown"] :=
      of_decide_eq_true hf
    simp only [RagApp.process_tax_speech, hp, ht]
    split_ifs with h1 h2 h3
    · exact ⟨hp, ht⟩
    · exact ⟨hp, ht⟩
    · exact absurd hu h3
    · exact ⟨hp, ht⟩
  | previous_itr_filed =>
    simp only [RagApp.slot_extraction_fails, Option.isNone_iff_eq_none] at hf
    simp only [RagApp.process_tax_speech, hp, ht, hf]
    split_ifs with h1 h2
    · exact ⟨hp, ht⟩
    · exact ⟨hp, ht⟩
    · exact ⟨hp, ht⟩
  | current_deductions =>
    simp only [RagApp.slot_extraction_fails, Option.isNone_iff_eq_none] at hf
    simp only [RagApp.process_tax_speech, hp, ht, hf]
    split_ifs with h1 h2
    · exact ⟨hp, ht⟩
    · exact ⟨hp, ht⟩
    · exact ⟨hp, ht⟩

/-- Witness for C9: a session awaiting the previous-ITR yes/no slot fed an
utterance with neither a yes nor a no keyword keeps its pending slot. -/
theorem c9_slot_retained_witness :
    RagApp.slot_extraction_fails RagApp.SlotType.previous_itr_filed
      (pyStrip "tell me more please") = true ∧
    ((RagApp.process_tax_speech "resp" "tell me more please" c9Session).2.pending_follow_up =
        some RagApp.itrQuestion ∧
      (RagApp.process_tax_speech "resp" "tell me more please" c9Session).2.pending_follow_up_type =
        some RagApp.SlotType.previous_itr_filed) :=
  ⟨by decide,
   c9_slot_retained "resp" "tell me more please" c9Session RagApp.itrQuestion
     RagApp.SlotType.previous_itr_filed rfl rfl (by decide)⟩


/-- One transaction step keeps the 80C, 24b and 80TTA running totals within
their statutory limits: those three additions are clipped to the remaining
headroom `min(amount, limit - current)`. -/
theorem processTransaction_caps (st : TaxCalculator.FinState) (t : TaxCalculator.Transaction)
    (h1 : st.ded.d80C ≤ 150000) (h2 : st.ded.d24b ≤ 200000) (h3 : st.ded.d80TTA ≤ 10000) :
    (TaxCalculator.processTransaction st t).ded.d80C ≤ 150000 ∧
    (TaxCalculator.processTransaction st t).ded.d24b ≤ 200000 ∧
    (TaxCalculator.processTransaction st t).ded.d80TTA ≤ 10000 := by
  have e80C : TaxCalculator.limitOf "80C" = 150000 := by decide
  have e24b : TaxCalculator.limitOf "24b" = 200000 := by decide
  have e80TTA : TaxCalculator.limitOf "80TTA" = 10000 := by decide
  simp only [TaxCalculator.processTransaction, e80C, e24b, e80TTA]
  split_ifs <;>
    refine ⟨?_, ?_, ?_⟩ <;>
    dsimp only <;>
    first
      | assumption
      | linarith [min_le_right t.amount ((150000 : ℚ) - st.ded.d80C),
          min_le_right (t.amount * 0.7) ((200000 : ℚ) - st.ded.d24b),
          min_le_right t.amount ((10000 : ℚ) - st.ded.d80TTA)]

/-- Folding the transaction loop preserves the three clipped caps. -/
theorem analyze_caps_aux (ts : List TaxCalculator.Transaction) (st : TaxCalculator.FinState)
    (h1 : st.ded.d80C ≤ 150000) (h2 : st.ded.d24b ≤ 200000) (h3 : st.ded.d80TTA ≤ 10000) :
    (ts.foldl TaxCalculator.processTransaction st).ded.d80C ≤ 150000 ∧
    (ts.foldl TaxCalculator.processTransaction st).ded.d24b ≤ 200000 ∧
    (ts.foldl TaxCalculator.processTransaction st).ded.d80TTA ≤ 10000 := by
  induction ts generalizing st with
  | nil => exact ⟨h1, h2, h3⟩
  | cons t ts ih =>
    obtain ⟨g1, g2, g3⟩ := processTransaction_caps st t h1 h2 h3
    simpa only [List.foldl_cons] using ih (TaxCalculator.processTransaction st t) g1 g2 g3

/-- C2 counterexample: two qualifying 20000 health-insurance debits leave
40000 in the 80D ledger, above the 25000 limit of section 80D — the 80D
branch clips each transaction at `min(amount, limit)` instead of clipping
the running total. -/
theorem c2_counterexample :
    (TaxCalculator.analyze_financial_data [c2HealthTxn, c2HealthTxn]).deductions.d80D = 40000 ∧
    ¬ ((TaxCalculator.analyze_financial_data [c2HealthTxn, c2HealthTxn]).deductions.d80D ≤
        TaxCalculator.limitOf "80D") := by
  have e80D : TaxCalculator.limitOf "80D" = 25000 := by decide
  have hS : pyIn "sip" (pyLower "health insurance premium") = false := by decide
  have hH : pyIn "health" (pyLower "health insurance premium") = true := by decide
  have hP : pyIn "parent" (pyLower "health insurance premium") = false := by decide
  have hmin : min (20000 : ℚ) 25000 = 20000 := by norm_num
  have hadd : (20000 : ℚ) + 20000 = 40000 := by norm_num
  have step1 : TaxCalculator.processTransaction finStateInit c2HealthTxn =
      ⟨0, ⟨0, 20000, 0, 0, 0, 0⟩, [("insurance", 20000)]⟩ := by
    simp [TaxCalculator.processTransaction, TaxCalculator.bumpCategory,
      finStateInit, c2HealthTxn, e80D, hS, hH, hP, hmin]
  have step2 : TaxCalculator.processTransaction ⟨0, ⟨0, 20000, 0, 0, 0, 0⟩,
      [("insurance", 20000)]⟩ c2HealthTxn =
      ⟨0, ⟨0, 40000, 0, 0, 0, 0⟩, [("insurance", 40000)]⟩ := by
    simp [TaxCalculator.processTransaction, TaxCalculator.bumpCategory,
      c2HealthTxn, e80D, hS, hH, hP, hmin, hadd]
  have : TaxCalculator.analyze_financial_data [c2HealthTxn, c2HealthTxn] =
      ⟨0, 40000, ⟨0, 40000, 0, 0, 0, 0⟩, [("insurance", 40000)]⟩ := by
    simp only [TaxCalculator.analyze_financial_data, List.foldl_cons, List.foldl_nil]
    rw [show (⟨0, ⟨0, 0, 0, 0, 0, 0⟩, []⟩ : TaxCalculator.FinState) = finStateInit from rfl,
      step1, step2]
    norm_num [TaxCalculator.Deductions.total]
  rw [this, e80D]
  norm_num

/-- C2 amended: after extraction the 80C, 24b and 80TTA ledger totals never
exceed their statutory limits for any transaction sequence (their additions
are clipped to the remaining headroom); the 80D total is only clipped per
transaction, so it can exceed its 25000 limit (see the counterexample), and
80G / 80E are accumulated without limit by design. -/
theorem c2_cap_invariant_amended (ts : List TaxCalculator.Transaction) :
    (TaxCalculator.analyze_financial_data ts).deductions.d80C ≤ TaxCalculator.limitOf "80C" ∧
    (TaxCalculator.analyze_financial_data ts).deductions.d24b ≤ TaxCalculator.limitOf "24b" ∧
    (TaxCalculator.analyze_financial_data ts).deductions.d80TTA ≤ TaxCalculator.limitOf "80TTA" := by
  have e80C : TaxCalculator.limitOf "80C" = 150000 := by decide
  have e24b : TaxCalculator.limitOf "24b" = 200000 := by decide
  have e80TTA : TaxCalculator.limitOf "80TTA" = 10000 := by decide
  rw [e80C, e24b, e80TTA]
  simp only [TaxCalculator.analyze_financial_data]
  exact analyze_caps_aux ts ⟨0, ⟨0, 0, 0, 0, 0, 0⟩, []⟩
    (by norm_num) (by norm_num) (by norm_num)


/-- The static LLM-failure fallback answer of `chat_query` is never the
empty string. -/
theorem chat_fallback_answer_ne_empty (q : String) :
    FastApiEndpoints.chat_fallback_answer q ≠ "" := by
  intro h
  have h2 := congrArg String.length h
  simp only [FastApiEndpoints.chat_fallback_answer, String.length_append] at h2
  have e1 : 0 < ("I understand you\x27re asking about: " : String).length := by decide
  have e0 : ("" : String).length = 0 := by decide
  rw [e0] at h2
  omega

/-- C6 counterexample: with the knowledge store erroring on every call, if
the LLM call itself succeeds but returns the empty string, `chat_query`
returns an empty answer (`sources_used` is still 0), so the "non-empty
response string" part of the claim fails. -/
theorem c6_counterexample :
    FastApiEndpoints.chat_query true true true (Except.error "store down")
      (Except.ok "") "what is section 80c" =
      Except.ok ⟨"", 0, "medium"⟩ := by
  rfl

/-- C6 amended: if the category collection is missing or the backing store
raises, retrieval returns a single sentinel entry instead of raising; and
when the vector search raises on every call, `chat_query` still returns a
result with `sources_used = 0` whose answer is the (non-empty) static
fallback whenever the LLM call raises, and is exactly the LLM text when the
LLM call succeeds (so it is non-empty unless the LLM returns empty text). -/
theorem c6_retrieval_degradation_amended :
    (∀ (store : String → Option (Except String (List (String × ℚ)))) (q c : String),
        (∀ r, store c ≠ some (Except.ok r)) →
        (RagApp.query_tax_collection store q c).length = 1) ∧
    (∀ (e q : String) (g : Except String String), pyStrip q ≠ "" →
        ∃ res, FastApiEndpoints.chat_query true true true (Except.error e) g q =
            Except.ok res ∧
          res.sources_used = 0 ∧
          (∀ msg, g = Except.error msg →
            res.answer = FastApiEndpoints.chat_fallback_answer q ∧ res.answer ≠ "") ∧
          (∀ a, g = Except.ok a → res.answer = a)) := by
  constructor
  · intro store q c h
    simp only [RagApp.query_tax_collection]
    cases hs : store c with
    | none => rfl
    | some x =>
      cases x with
      | error e => rfl
      | ok r => exact absurd hs (h r)
  · intro e q g hq
    simp only [FastApiEndpoints.chat_query, if_neg hq]
    cases g with
    | ok a =>
      refine ⟨⟨a, 0, "medium"⟩, ?_, rfl, ?_, ?_⟩
      · simp
      · intro msg hmsg; cases hmsg
      · intro a2 ha; cases ha; exact rfl
    | error msg =>
      refine ⟨⟨FastApiEndpoints.chat_fallback_answer q, 0, "low"⟩, ?_, rfl, ?_, ?_⟩
      · simp
      · intro msg2 hmsg
        exact ⟨rfl, chat_fallback_answer_ne_empty q⟩
      · intro a2 ha; cases ha

/-- Witness for C6 amended: a store with no collections yields exactly one
sentinel entry, and a failing vector search with a failing LLM yields the
non-empty fallback with zero sources. -/
theorem c6_retrieval_degradation_amended_witness :
    (RagApp.query_tax_collection (fun _ => none) "which regime" "tax_regimes").length = 1 ∧
    (∃ res, FastApiEndpoints.chat_query true true true (Except.error "store down")
        (Except.error "llm down") "what is 80c" = Except.ok res ∧
      res.sources_used = 0 ∧
      (∀ msg, (Except.error "llm down" : Except String String) = Except.error msg →
        res.answer = FastApiEndpoints.chat_fallback_answer "what is 80c" ∧ res.answer ≠ "") ∧
      (∀ a, (Except.error "llm down" : Except String String) = Except.ok a →
        res.answer = a)) :=
  ⟨c6_retrieval_degradation_amended.1 (fun _ => none) "which regime" "tax_regimes"
      (fun r h => by cases h),
   c6_retrieval_degradation_amended.2 "store down" "what is 80c"
      (Except.error "llm down") (by decide)⟩


/-- C8 counterexample: the `TaxCalculator.calculate_tax` pipeline performs
no income validation: with no transactions the derived total income is 0
(not positive) and a zero-tax result is returned silently rather than any
rejection (the return type has no error channel in the source either). -/
theorem c8_counterexample :
    (TaxCalculator.calculate_tax []).total_income = 0 ∧
    (TaxCalculator.calculate_tax []).old_regime_tax = 0 ∧
    (TaxCalculator.calculate_tax []).new_regime_tax = 0 := by
  refine ⟨?_, ?_, ?_⟩ <;>
    norm_num [TaxCalculator.calculate_tax, TaxCalculator.analyze_financial_data,
      TaxCalculator.calculate_old_regime_tax, TaxCalculator.calculate_new_regime_tax,
      TaxCalculator.calculate_tax_from_slabs, TaxCalculator.tc_slab_loop,
      TaxCalculator.Deductions.total, TaxCalculator.standard_deduction,
      TaxCalculator.old_regime_slabs, TaxCalculator.new_regime_slabs,
      round2, round_eq, List.foldl_nil, max_def]

/-- C8 amended: the `/analyze/tax` endpoint rejects a non-positive
`annual_income` with the 422 validation error before computing any tax, but
`TaxCalculator.calculate_tax` performs no such validation and silently
returns a zero-tax result when the derived income is zero (see the
counterexample). -/
theorem c8_validation_amended (income : ℚ) (inv : List (String × ℚ))
    (h : income ≤ 0) :
    FastApiEndpoints.analyze_tax income inv =
      Except.error "Annual income must be positive" := by
  simp only [FastApiEndpoints.analyze_tax, if_pos h]

/-- Witness for C8 amended at income 0 with no investments. -/
theorem c8_validation_amended_witness :
    (0 : ℚ) ≤ 0 ∧
    FastApiEndpoints.analyze_tax 0 [] = Except.error "Annual income must be positive" :=
  ⟨le_refl 0, c8_validation_amended 0 [] (le_refl 0)⟩


/-- The fastapi slab walk is non-negative on well-formed tables. -/
theorem fp_slab_loop_nonneg (income : ℚ) (slabs : List Slab) :
    ∀ prev : ℚ, slabsWF prev slabs → 0 ≤ FinancialProcessor.slab_loop income prev slabs := by
  induction slabs with
  | nil => intro prev _; simp [FinancialProcessor.slab_loop]
  | cons sl rest ih =>
    intro prev hw
    obtain ⟨limit, rate⟩ := sl
    cases limit with
    | none =>
      simp only [slabsWF] at hw
      simp only [FinancialProcessor.slab_loop, FinancialProcessor.capMin]
      split_ifs with h1
      · exact le_refl 0
      · exact mul_nonneg (by linarith [not_le.mp h1]) hw
    | some l =>
      simp only [slabsWF] at hw
      obtain ⟨hr, hpl, hrest⟩ := hw
      simp only [FinancialProcessor.slab_loop, FinancialProcessor.capMin]
      split_ifs with h1 h2
      · exact le_refl 0
      · have hpm : prev ≤ min income l := le_min (le_of_lt (not_le.mp h1)) hpl
        exact mul_nonneg (by linarith) hr
      · have hpm : prev ≤ min income l := le_min (le_of_lt (not_le.mp h1)) hpl
        exact add_nonneg (mul_nonneg (by linarith) hr) (ih l hrest)

/-- The fastapi slab walk is monotone in the income on well-formed tables. -/
theorem fp_slab_loop_mono (i1 i2 : ℚ) (h12 : i1 ≤ i2) (slabs : List Slab) :
    ∀ prev : ℚ, slabsWF prev slabs →
      FinancialProcessor.slab_loop i1 prev slabs ≤
        FinancialProcessor.slab_loop i2 prev slabs := by
  induction slabs with
  | nil => intro prev _; simp [FinancialProcessor.slab_loop]
  | cons sl rest ih =>
    intro prev hw
    obtain ⟨limit, rate⟩ := sl
    cases limit with
    | none =>
      have hr : (0 : ℚ) ≤ rate := by simpa only [slabsWF] using hw
      simp only [FinancialProcessor.slab_loop, FinancialProcessor.capMin]
      split_ifs with h1 h2 h2
      · exact le_refl 0
      · exact mul_nonneg (by linarith [not_le.mp h2]) hr
      · exact absurd (h12.trans h2) h1
      · exact mul_le_mul_of_nonneg_right (by linarith) hr
    | some l =>
      have hw' := hw
      simp only [slabsWF] at hw'
      obtain ⟨hr, hpl, hrest⟩ := hw'
      by_cases h1 : i1 ≤ prev
      · have h0 : FinancialProcessor.slab_loop i1 prev ((some l, rate) :: rest) = 0 := by
          simp [FinancialProcessor.slab_loop, h1]
        rw [h0]
        exact fp_slab_loop_nonneg i2 ((some l, rate) :: rest) prev hw
      · have h2 : ¬ i2 ≤ prev := fun hc => h1 (h12.trans hc)
        simp only [FinancialProcessor.slab_loop, FinancialProcessor.capMin,
          if_neg h1, if_neg h2]
        by_cases h3 : i1 ≤ l
        · have t12 : (min i1 l - prev) * rate ≤ (min i2 l - prev) * rate :=
            mul_le_mul_of_nonneg_right
              (by have := min_le_min h12 (le_refl l); linarith) hr
          rw [if_pos h3]
          by_cases h4 : i2 ≤ l
          · rw [if_pos h4]; exact t12
          · rw [if_neg h4]
            have hnn : 0 ≤ FinancialProcessor.slab_loop i2 l rest :=
              fp_slab_loop_nonneg i2 rest l hrest
            linarith
        · have h4 : ¬ i2 ≤ l := fun hc => h3 (h12.trans hc)
          rw [if_neg h3, if_neg h4, min_eq_right (le_of_not_le h3),
            min_eq_right (le_of_not_le h4)]
          have := ih l hrest
          linarith

/-- The services slab walk returns 0 once the remaining income is spent. -/
theorem tc_slab_loop_nonpos (r prev : ℚ) (slabs : List Slab) (h : r ≤ 0) :
    TaxCalculator.tc_slab_loop r prev slabs = 0 := by
  cases slabs with
  | nil => rfl
  | cons sl rest => obtain ⟨limit, rate⟩ := sl; simp [TaxCalculator.tc_slab_loop, h]

/-- The services slab walk is non-negative on well-formed tables. -/
theorem tc_slab_loop_nonneg (slabs : List Slab) :
    ∀ r prev : ℚ, slabsWF prev slabs → 0 ≤ TaxCalculator.tc_slab_loop r prev slabs := by
  induction slabs with
  | nil => intro r prev _; simp [TaxCalculator.tc_slab_loop]
  | cons sl rest ih =>
    intro r prev hw
    obtain ⟨limit, rate⟩ := sl
    by_cases h : r ≤ 0
    · rw [tc_slab_loop_nonpos r prev _ h]
    · cases limit with
      | none =>
        have hr : (0 : ℚ) ≤ rate := by simpa only [slabsWF] using hw
        simp only [TaxCalculator.tc_slab_loop, if_neg h]
        have h0 : TaxCalculator.tc_slab_loop 0 0 rest = 0 :=
          tc_slab_loop_nonpos 0 0 rest (le_refl 0)
        rw [h0]
        have := mul_nonneg (le_of_lt (not_le.mp h)) hr
        linarith
      | some l =>
        simp only [slabsWF] at hw
        obtain ⟨hr, hpl, hrest⟩ := hw
        simp only [TaxCalculator.tc_slab_loop, if_neg h]
        have hm : 0 ≤ min r (l - prev) :=
          le_min (le_of_lt (not_le.mp h)) (by linarith)
        exact add_nonneg (mul_nonneg hm hr) (ih _ l hrest)

/-- The services slab walk is monotone in the remaining income on
well-formed tables. -/
theorem tc_slab_loop_mono (slabs : List Slab) :
    ∀ r1 r2 prev : ℚ, r1 ≤ r2 → slabsWF prev slabs →
      TaxCalculator.tc_slab_loop r1 prev slabs ≤
        TaxCalculator.tc_slab_loop r2 prev slabs := by
  induction slabs with
  | nil => intro r1 r2 prev _ _; simp [TaxCalculator.tc_slab_loop]
  | cons sl rest ih =>
    intro r1 r2 prev h12 hw
    obtain ⟨limit, rate⟩ := sl
    by_cases h1 : r1 ≤ 0
    · rw [tc_slab_loop_nonpos r1 prev _ h1]
      exact tc_slab_loop_nonneg _ r2 prev hw
    · have h2 : ¬ r2 ≤ 0 := fun hc => h1 (h12.trans hc)
      cases limit with
      | none =>
        have hr : (0 : ℚ) ≤ rate := by simpa only [slabsWF] using hw
        simp only [TaxCalculator.tc_slab_loop, if_neg h1, if_neg h2]
        have := mul_le_mul_of_nonneg_right h12 hr
        linarith
      | some l =>
        simp only [slabsWF] at hw
        obtain ⟨hr, hpl, hrest⟩ := hw
        simp only [TaxCalculator.tc_slab_loop, if_neg h1, if_neg h2]
        have hm : min r1 (l - prev) ≤ min r2 (l - prev) :=
          min_le_min h12 (le_refl _)
        have hrem : r1 - min r1 (l - prev) ≤ r2 - min r2 (l - prev) := by
          rcases le_total r1 (l - prev) with hc | hc
          · rw [min_eq_left hc]
            have := min_le_left r2 (l - prev)
            linarith
          · rw [min_eq_right hc, min_eq_right (hc.trans h12)]
            linarith
        exact add_le_add (mul_le_mul_of_nonneg_right hm hr) (ih _ _ l hrem hrest)

/-- The fastapi old-regime table is well-formed. -/
theorem old_slabs_wf_fp : slabsWF 0 FinancialProcessor.OLD_REGIME_SLABS := by
  norm_num [slabsWF, FinancialProcessor.OLD_REGIME_SLABS]

/-- The fastapi new-regime table is well-formed. -/
theorem new_slabs_wf_fp : slabsWF 0 FinancialProcessor.NEW_REGIME_SLABS := by
  norm_num [slabsWF, FinancialProcessor.NEW_REGIME_SLABS]

/-- The services old-regime table is well-formed. -/
theorem old_slabs_wf_tc : slabsWF 0 TaxCalculator.old_regime_slabs := by
  norm_num [slabsWF, TaxCalculator.old_regime_slabs]

/-- The services new-regime table is well-formed. -/
theorem new_slabs_wf_tc : slabsWF 0 TaxCalculator.new_regime_slabs := by
  norm_num [slabsWF, TaxCalculator.new_regime_slabs]

/-- `round(·, 2)` is monotone. -/
theorem round2_mono {x y : ℚ} (h : x ≤ y) : round2 x ≤ round2 y := by
  unfold round2
  have hr : round (x * 100) ≤ round (y * 100) := by
    rw [round_eq, round_eq]
    exact Int.floor_le_floor (by linarith)
  have hc : ((round (x * 100) : ℤ) : ℚ) ≤ ((round (y * 100) : ℤ) : ℚ) := by
    exact_mod_cast hr
  linarith

/-- C5: for both bracket engines and any fixed regime, total tax including
cess is monotone in the income: `0 ≤ i1 < i2` implies `total_tax(i1) ≤
total_tax(i2)` (for the fastapi engine under any regime string, and for the
services engine on both of its slab tables). -/
theorem c5_bracket_monotonicity (regime : String) (i1 i2 : ℚ)
    (h0 : 0 ≤ i1) (h12 : i1 < i2) :
    (FinancialProcessor.calculate_tax i1 regime).total_tax ≤
      (FinancialProcessor.calculate_tax i2 regime).total_tax ∧
    TaxCalculator.calculate_tax_from_slabs i1 TaxCalculator.old_regime_slabs ≤
      TaxCalculator.calculate_tax_from_slabs i2 TaxCalculator.old_regime_slabs ∧
    TaxCalculator.calculate_tax_from_slabs i1 TaxCalculator.new_regime_slabs ≤
      TaxCalculator.calculate_tax_from_slabs i2 TaxCalculator.new_regime_slabs := by
  have h12' := le_of_lt h12
  refine ⟨?_, ?_, ?_⟩
  · simp only [FinancialProcessor.calculate_tax]
    have hw : slabsWF 0 (if regime = "new" then FinancialProcessor.NEW_REGIME_SLABS
        else FinancialProcessor.OLD_REGIME_SLABS) := by
      split_ifs
      · exact new_slabs_wf_fp
      · exact old_slabs_wf_fp
    have hmono := fp_slab_loop_mono i1 i2 h12' _ 0 hw
    exact mul_le_mul_of_nonneg_right hmono (by norm_num)
  · unfold TaxCalculator.calculate_tax_from_slabs
    apply round2_mono
    have hmono := tc_slab_loop_mono TaxCalculator.old_regime_slabs i1 i2 0 h12' old_slabs_wf_tc
    exact mul_le_mul_of_nonneg_right hmono (by norm_num)
  · unfold TaxCalculator.calculate_tax_from_slabs
    apply round2_mono
    have hmono := tc_slab_loop_mono TaxCalculator.new_regime_slabs i1 i2 0 h12' new_slabs_wf_tc
    exact mul_le_mul_of_nonneg_right hmono (by norm_num)

/-- Witness for C5 at regime "old", incomes 0 and 1200000. -/
theorem c5_bracket_monotonicity_witness :
    (0 : ℚ) ≤ 0 ∧ (0 : ℚ) < 1200000 ∧
    ((FinancialProcessor.calculate_tax 0 "old").total_tax ≤
        (FinancialProcessor.calculate_tax 1200000 "old").total_tax ∧
      TaxCalculator.calculate_tax_from_slabs 0 TaxCalculator.old_regime_slabs ≤
        TaxCalculator.calculate_tax_from_slabs 1200000 TaxCalculator.old_regime_slabs ∧
      TaxCalculator.calculate_tax_from_slabs 0 TaxCalculator.new_regime_slabs ≤
        TaxCalculator.calculate_tax_from_slabs 1200000 TaxCalculator.new_regime_slabs) :=
  ⟨le_refl 0, by norm_num,
   c5_bracket_monotonicity "old" 0 1200000 (le_refl 0) (by norm_num)⟩


/-- C3: the recommendation pipeline double-subtracts the itemized
deductions.  With a 1200000 salary credit and a 150000 ELSS 80C deduction,
the reported `taxable_income` is `max(0, 1200000 - 150000 - 50000) =
1000000` as the claim says, but `old_regime_tax` is computed by
`_calculate_old_regime_tax`, which subtracts the deduction sum again and
walks the brackets on 850000, returning 85800 — whereas the bracket engine
applied to the reported taxable income 1000000 gives 117000. -/
theorem c3_code_eval :
    (TaxCalculator.calculate_tax [c3SalaryTxn, c3ElssTxn]).taxable_income = 1000000 ∧
    (TaxCalculator.calculate_tax [c3SalaryTxn, c3ElssTxn]).old_regime_tax = 85800 ∧
    TaxCalculator.calculate_tax_from_slabs 1000000 TaxCalculator.old_regime_slabs = 117000 ∧
    (85800 : ℚ) ≠ 117000 := by
  have hA : pyIn "salary" (pyLower "monthly salary credit") = true := by decide
  have hB : pyIn "elss" (pyLower "sip elss mutual fund") = true := by decide
  have e80C : TaxCalculator.limitOf "80C" = 150000 := by decide
  have s1 : TaxCalculator.processTransaction finStateInit c3SalaryTxn =
      ⟨1200000, ⟨0, 0, 0, 0, 0, 0⟩, [("income", 0)]⟩ := by
    simp [TaxCalculator.processTransaction, TaxCalculator.bumpCategory,
      finStateInit, c3SalaryTxn, hA]
  have s2 : TaxCalculator.processTransaction ⟨1200000, ⟨0, 0, 0, 0, 0, 0⟩,
      [("income", 0)]⟩ c3ElssTxn =
      ⟨1200000, ⟨150000, 0, 0, 0, 0, 0⟩, [("income", 0), ("sip", 150000)]⟩ := by
    simp [TaxCalculator.processTransaction, TaxCalculator.bumpCategory,
      c3ElssTxn, hB, e80C]
  have han : TaxCalculator.analyze_financial_data [c3SalaryTxn, c3ElssTxn] =
      ⟨1200000, 150000, ⟨150000, 0, 0, 0, 0, 0⟩, [("income", 0), ("sip", 150000)]⟩ := by
    simp only [TaxCalculator.analyze_financial_data, List.foldl_cons, List.foldl_nil]
    rw [show (⟨0, ⟨0, 0, 0, 0, 0, 0⟩, []⟩ : TaxCalculator.FinState) = finStateInit from rfl,
      s1, s2]
    norm_num [TaxCalculator.Deductions.total]
  have hold : TaxCalculator.calculate_tax_from_slabs 850000 TaxCalculator.old_regime_slabs
      = 85800 := by
    norm_num [TaxCalculator.calculate_tax_from_slabs, TaxCalculator.tc_slab_loop,
      TaxCalculator.old_regime_slabs, min_def, round2, round_eq]
  have hold2 : TaxCalculator.calculate_tax_from_slabs 1000000 TaxCalculator.old_regime_slabs
      = 117000 := by
    norm_num [TaxCalculator.calculate_tax_from_slabs, TaxCalculator.tc_slab_loop,
      TaxCalculator.old_regime_slabs, min_def, round2, round_eq]
  have ht : max (0 : ℚ) (1200000 - 150000 - TaxCalculator.standard_deduction) = 1000000 := by
    norm_num [TaxCalculator.standard_deduction]
  have htot : TaxCalculator.Deductions.total ⟨150000, 0, 0, 0, 0, 0⟩ = 150000 := by
    norm_num [TaxCalculator.Deductions.total]
  refine ⟨?_, ?_, hold2, by norm_num⟩
  · simp only [TaxCalculator.calculate_tax, han, ht]
  · simp only [TaxCalculator.calculate_tax, han, ht,
      TaxCalculator.calculate_old_regime_tax, htot]
    rw [show max (0 : ℚ) (1000000 - 150000) = 850000 by norm_num, hold]
